import Mathlib

/-!
Verification of the QR-code attendance system (`main.py`): a shallow
embedding of the check-in validation core — the scan rate limiter, the
token (QR-code) store, the attendance ledger, and the two check-in
handlers `attend_form` (the rate-limited web-form channel) and
`record_attendance` (the JSON API channel) — together with theorems
settling the specification's claims about duplicate prevention, token
expiry, rate limiting, and the frame effects of each operation.

Python dictionaries are embedded as association lists with unique keys;
`datetime` instants are embedded as integer timestamps (seconds), with
the 30-minute validity and rate-limit window as the constant 1800.
-/

namespace QRAttendance

/-- Timestamps and durations, in seconds (Python `datetime` instants). -/
abbrev Time := Int

/-- `timedelta(minutes=30)`, the token validity and rate-limit window. -/
def thirtyMinutes : Time := 1800

/-- Lookup in an association list, modelling a Python dict read. -/
def getKey {α : Type} : List (String × α) → String → Option α
  | [], _ => none
  | (k1, v) :: rest, k => if k1 = k then some v else getKey rest k

/-- Update or insert, modelling a Python dict assignment `d[k] = v`. -/
def setKey {α : Type} : List (String × α) → String → α → List (String × α)
  | [], k, v => [(k, v)]
  | (k1, v1) :: rest, k, v =>
      if k1 = k then (k, v) :: rest else (k1, v1) :: setKey rest k v

/-- Deletion of the (unique) binding for a key, modelling `del d[k]`. -/
def delKey {α : Type} : List (String × α) → String → List (String × α)
  | [], _ => []
  | (k1, v1) :: rest, k => if k1 = k then rest else (k1, v1) :: delKey rest k

/-- The keys of the association list are pairwise distinct, as Python
dict keys always are; states built by the handlers preserve this. -/
def keysNodup {α : Type} (m : List (String × α)) : Prop :=
  (m.map Prod.fst).Nodup

instance {α : Type} (m : List (String × α)) : Decidable (keysNodup m) :=
  inferInstanceAs (Decidable (List.Nodup _))

/-- One row of the attendance ledger (`attendance_records[day]` entries). -/
structure AttendanceRecord where
  time : Time
  studentId : String
  studentName : String
  status : String
  method : String
  deriving DecidableEq, Repr

/-- The process-wide mutable state of `main.py`: the attendance ledger
keyed by day, the token store `valid_qr_codes` keyed by token id
(holding the token's expiry instant, the only field validation reads),
and the per-client `scan_history`. -/
structure SysState where
  attendance_records : List (String × List AttendanceRecord)
  valid_qr_codes : List (String × Time)
  scan_history : List (String × List Time)
  deriving DecidableEq, Repr

/-- Today's ledger partition: `attendance_records.get(today, [])`. -/
def todayRecords (st : SysState) (day : String) : List AttendanceRecord :=
  (getKey st.attendance_records day).getD []

/-- The stored scan history of a client: `scan_history.get(ip, [])`. -/
def histOf (st : SysState) (ip : String) : List Time :=
  (getKey st.scan_history ip).getD []

/-- Keep only the scan times inside the trailing 30-minute window:
`[t for t in scans if t > now - timedelta(minutes=30)]`. -/
def pruneScans (now : Time) (scans : List Time) : List Time :=
  scans.filter (fun t => decide (now - thirtyMinutes < t))

/-- `check_scan_limit` (`main.py` 21-43): prune the client's history to
the trailing 30-minute window, store the pruned list back, and deny when
a scan remains in the window; the denial message carries
`next_allowed_time = scan_history[client_ip][0] + timedelta(minutes=30)`. -/
def check_scan_limit (st : SysState) (client_ip : String) (now : Time) :
    (Bool × Option Time) × SysState :=
  let pruned := pruneScans now (histOf st client_ip)
  let st1 : SysState := { st with scan_history := setKey st.scan_history client_ip pruned }
  match pruned with
  | [] => ((true, none), st1)
  | t0 :: _ => ((false, some (t0 + thirtyMinutes)), st1)

/-- `record_scan_attempt` (`main.py` 45-52): append the current time to
the client's scan history.  No pruning happens here. -/
def record_scan_attempt (st : SysState) (client_ip : String) (now : Time) : SysState :=
  { st with scan_history := setKey st.scan_history client_ip (histOf st client_ip ++ [now]) }

/-- The `/api/check_scan_limit` endpoint (`main.py` 141-156): runs
`check_scan_limit` and reports the remaining quota `1 - len(history)`
and the reset time `history[0] + 30min` (None when the history is empty). -/
def check_scan_limit_api (st : SysState) (client_ip : String) (now : Time) :
    (Bool × Int × Option Time) × SysState :=
  let gate := check_scan_limit st client_ip now
  let history := histOf gate.2 client_ip
  ((gate.1.1, 1 - (history.length : Int), history.head?.map (fun t => t + thirtyMinutes)), gate.2)

/-- `/api/generate_qr` (`main.py` 59-86): issue a token whose expiry is
30 minutes from now; only the expiry field is read by validation. -/
def generate_qr (st : SysState) (qr_id : String) (now : Time) : SysState :=
  { st with valid_qr_codes := setKey st.valid_qr_codes qr_id (now + thirtyMinutes) }

/-- Outcome of the `/api/attend` handler, one constructor per distinct
response of `record_attendance`. -/
inductive ApiResult where
  | missingInfo
  | duplicate
  | invalidToken
  | tokenExpired
  | success (record : AttendanceRecord)
  deriving DecidableEq, Repr

/-- The JSON body of an `/api/attend` request; `none` models an absent
field, `some ""` an empty one (both falsy in Python). -/
structure ApiRequest where
  studentId : Option String
  studentName : Option String
  method : Option String
  qrId : Option String
  deriving DecidableEq, Repr

/-- Append a freshly built record to today's ledger partition:
`attendance_records[today].append(new_record)`. -/
def insertToday (st : SysState) (today : String) (todays : List AttendanceRecord)
    (r : AttendanceRecord) : SysState :=
  { st with attendance_records := setKey st.attendance_records today (todays ++ [r]) }

/-- The `/api/attend` handler `record_attendance` (`main.py` 374-420):
validate the fields, initialise today's partition, reject duplicates,
then — only when `method == 'qr'` and `qrId` is truthy — check the token
store and expiry, and finally append the record. -/
def record_attendance (st : SysState) (req : ApiRequest) (today : String) (now : Time) :
    ApiResult × SysState :=
  match req.studentId, req.studentName, req.method with
  | some sid, some sname, some m =>
    if sid = "" ∨ sname = "" ∨ m = "" then (ApiResult.missingInfo, st)
    else
      let todays := todayRecords st today
      let st1 : SysState :=
        { st with attendance_records := setKey st.attendance_records today todays }
      if ∃ r ∈ todays, r.studentId = sid then (ApiResult.duplicate, st1)
      else
        let newRecord : AttendanceRecord := ⟨now, sid, sname, "Present", m⟩
        match req.qrId with
        | some q =>
          if m = "qr" ∧ q ≠ "" then
            match getKey st1.valid_qr_codes q with
            | none => (ApiResult.invalidToken, st1)
            | some expiry =>
              if expiry < now then
                (ApiResult.tokenExpired,
                  { st1 with valid_qr_codes := delKey st1.valid_qr_codes q })
              else (ApiResult.success newRecord, insertToday st1 today todays newRecord)
          else (ApiResult.success newRecord, insertToday st1 today todays newRecord)
        | none => (ApiResult.success newRecord, insertToday st1 today todays newRecord)
  | _, _, _ => (ApiResult.missingInfo, st)

/-- Outcome of a POST to the `/attend` web form, one constructor per
distinct message set by `attend_form`. -/
inductive FormResult where
  | rateLimited (nextAllowed : Time)
  | missingFields
  | invalidQr
  | expiredQr
  | duplicate
  | success
  deriving DecidableEq, Repr

/-- A POST to `/attend`: the `qrId` query parameter, the two form
fields, and the client address the rate limiter keys on. -/
structure FormRequest where
  qrId : Option String
  studentId : Option String
  studentName : Option String
  clientIp : String
  deriving DecidableEq, Repr

/-- The `/attend` POST handler `attend_form` (`main.py` 87-139): the
scan-limit gate runs first, then field validation, token lookup and
expiry, the duplicate check, insertion, and finally
`record_scan_attempt` on success. -/
def attend_form (st : SysState) (req : FormRequest) (today : String) (now : Time) :
    FormResult × SysState :=
  let gate := check_scan_limit st req.clientIp now
  let st1 := gate.2
  match gate.1 with
  | (false, nextTime) => (FormResult.rateLimited (nextTime.getD 0), st1)
  | (true, _) =>
    match req.studentId, req.studentName with
    | some sid, some sname =>
      if sid = "" ∨ sname = "" then (FormResult.missingFields, st1)
      else
        match req.qrId with
        | none => (FormResult.invalidQr, st1)
        | some q =>
          match getKey st1.valid_qr_codes q with
          | none => (FormResult.invalidQr, st1)
          | some expiry =>
            if expiry < now then
              (FormResult.expiredQr,
                { st1 with valid_qr_codes := delKey st1.valid_qr_codes q })
            else
              let todays := todayRecords st1 today
              let st2 : SysState :=
                { st1 with attendance_records := setKey st1.attendance_records today todays }
              if ∃ r ∈ todays, r.studentId = sid then (FormResult.duplicate, st2)
              else
                let newRecord : AttendanceRecord := ⟨now, sid, sname, "Present", "qr"⟩
                (FormResult.success,
                  record_scan_attempt (insertToday st2 today todays newRecord) req.clientIp now)
    | _, _ => (FormResult.missingFields, st1)

/-- The spec's `hasRecord(day, studentId)` ledger query. -/
def hasRecord (st : SysState) (day sid : String) : Prop :=
  ∃ r ∈ todayRecords st day, r.studentId = sid

instance (st : SysState) (day sid : String) : Decidable (hasRecord st day sid) :=
  List.decidableBEx _ _

/-- The per-day uniqueness invariant: no two records of the partition
carry the same `studentId`. -/
def noDupIds (l : List AttendanceRecord) : Prop :=
  l.Pairwise (fun a b => a.studentId ≠ b.studentId)

instance (l : List AttendanceRecord) : Decidable (noDupIds l) :=
  inferInstanceAs (Decidable (l.Pairwise _))

/-! ### Association-list lemmas -/

theorem getKey_setKey_self {α : Type} (m : List (String × α)) (k : String) (v : α) :
    getKey (setKey m k v) k = some v := by
  induction m with
  | nil => simp [getKey, setKey]
  | cons p rest ih =>
    obtain ⟨k1, v1⟩ := p
    by_cases h : k1 = k
    · simp [setKey, getKey, h]
    · simp [setKey, getKey, h, ih]

theorem getKey_setKey_ne {α : Type} (m : List (String × α)) (k k2 : String) (v : α)
    (h : k2 ≠ k) : getKey (setKey m k v) k2 = getKey m k2 := by
  induction m with
  | nil =>
    simp only [setKey, getKey]
    rw [if_neg (fun hk => h hk.symm)]
  | cons p rest ih =>
    obtain ⟨k1, v1⟩ := p
    simp only [setKey]
    by_cases h1 : k1 = k
    · rw [if_pos h1]
      simp only [getKey]
      rw [if_neg (fun hk => h hk.symm), if_neg (fun hk => h (h1 ▸ hk).symm)]
    · rw [if_neg h1]
      simp only [getKey]
      by_cases h2 : k1 = k2
      · rw [if_pos h2, if_pos h2]
      · rw [if_neg h2, if_neg h2, ih]

theorem getKey_eq_none_of_not_mem {α : Type} (m : List (String × α)) (k : String)
    (h : k ∉ m.map Prod.fst) : getKey m k = none := by
  induction m with
  | nil => rfl
  | cons p rest ih =>
    obtain ⟨k1, v1⟩ := p
    simp only [List.map_cons, List.mem_cons, not_or] at h
    simp only [getKey]
    rw [if_neg (fun hk => h.1 hk.symm), ih h.2]

theorem getKey_delKey_self {α : Type} (m : List (String × α)) (k : String)
    (h : keysNodup m) : getKey (delKey m k) k = none := by
  induction m with
  | nil => rfl
  | cons p rest ih =>
    obtain ⟨k1, v1⟩ := p
    simp only [keysNodup, List.map_cons, List.nodup_cons] at h
    obtain ⟨hnm, hnd⟩ := h
    by_cases hk : k1 = k
    · subst hk
      have hdel : delKey ((k1, v1) :: rest) k1 = rest := by simp [delKey]
      rw [hdel]
      exact getKey_eq_none_of_not_mem rest k1 hnm
    · have hdel : delKey ((k1, v1) :: rest) k = (k1, v1) :: delKey rest k := by
        simp [delKey, hk]
      rw [hdel]
      simp only [getKey]
      rw [if_neg hk, ih hnd]

/-! ### Pruning lemmas -/

theorem mem_pruneScans (now t : Time) (l : List Time) :
    t ∈ pruneScans now l ↔ t ∈ l ∧ now - thirtyMinutes < t := by
  simp [pruneScans]

theorem pruneScans_singleton_within (now t0 : Time) (h : now < t0 + thirtyMinutes) :
    pruneScans now [t0] = [t0] := by
  have h2 : now - thirtyMinutes < t0 := by unfold thirtyMinutes at h ⊢; linarith
  simp [pruneScans, h2]

theorem pruneScans_singleton_past (now t0 : Time) (h : t0 + thirtyMinutes ≤ now) :
    pruneScans now [t0] = [] := by
  have h2 : ¬ now - thirtyMinutes < t0 := by unfold thirtyMinutes at h ⊢; push_neg; linarith
  simp [pruneScans, h2]

/-! ### Gate lemmas for the rate limiter -/

/-- The state left behind by `check_scan_limit`: the client's history is
replaced by its pruned form. -/
def gateState (st : SysState) (ip : String) (now : Time) : SysState :=
  { st with scan_history := setKey st.scan_history ip (pruneScans now (histOf st ip)) }

theorem check_scan_limit_allow (st : SysState) (ip : String) (now : Time)
    (h : pruneScans now (histOf st ip) = []) :
    check_scan_limit st ip now = ((true, none), gateState st ip now) := by
  simp [check_scan_limit, gateState, h]

theorem check_scan_limit_deny (st : SysState) (ip : String) (now : Time)
    (t0 : Time) (rest : List Time) (h : pruneScans now (histOf st ip) = t0 :: rest) :
    check_scan_limit st ip now = ((false, some (t0 + thirtyMinutes)), gateState st ip now) := by
  simp [check_scan_limit, gateState, h]

theorem histOf_gateState (st : SysState) (ip : String) (now : Time) :
    histOf (gateState st ip now) ip = pruneScans now (histOf st ip) := by
  simp [histOf, gateState, getKey_setKey_self]

/-! ### Branch characterisations of `record_attendance` -/

/-- The state after `if today not in attendance_records:
attendance_records[today] = []` — today's partition is materialised with
its current (possibly empty) contents. -/
def initToday (st : SysState) (today : String) : SysState :=
  { st with attendance_records := setKey st.attendance_records today (todayRecords st today) }

theorem hasRecord_def (st : SysState) (day sid : String) :
    hasRecord st day sid ↔ ∃ r ∈ todayRecords st day, r.studentId = sid := Iff.rfl

theorem record_attendance_dup (st : SysState) (req : ApiRequest) (today : String) (now : Time)
    (sid sname m : String)
    (hsid : req.studentId = some sid) (hsname : req.studentName = some sname)
    (hm : req.method = some m)
    (h1 : sid ≠ "") (h2 : sname ≠ "") (h3 : m ≠ "")
    (hdup : hasRecord st today sid) :
    record_attendance st req today now = (ApiResult.duplicate, initToday st today) := by
  simp only [record_attendance, hsid, hsname, hm]
  rw [if_neg (by simp [h1, h2, h3]), if_pos ((hasRecord_def st today sid).mp hdup)]
  rfl

theorem record_attendance_skip_token (st : SysState) (req : ApiRequest) (today : String)
    (now : Time) (sid sname m : String)
    (hsid : req.studentId = some sid) (hsname : req.studentName = some sname)
    (hm : req.method = some m)
    (h1 : sid ≠ "") (h2 : sname ≠ "") (h3 : m ≠ "")
    (hnd : ¬ hasRecord st today sid)
    (hskip : req.qrId = none ∨ req.qrId = some "" ∨ m ≠ "qr") :
    record_attendance st req today now =
      (ApiResult.success ⟨now, sid, sname, "Present", m⟩,
       insertToday (initToday st today) today (todayRecords st today)
         ⟨now, sid, sname, "Present", m⟩) := by
  have hnd2 : ¬ ∃ r ∈ todayRecords st today, r.studentId = sid :=
    fun hc => hnd ((hasRecord_def st today sid).mpr hc)
  rcases hskip with hq | hq | hq
  · simp only [record_attendance, hsid, hsname, hm, hq]
    rw [if_neg (by simp [h1, h2, h3]), if_neg hnd2]
    rfl
  · simp only [record_attendance, hsid, hsname, hm, hq]
    rw [if_neg (by simp [h1, h2, h3]), if_neg hnd2, if_neg (by simp)]
    rfl
  · cases hq2 : req.qrId with
    | none =>
      simp only [record_attendance, hsid, hsname, hm, hq2]
      rw [if_neg (by simp [h1, h2, h3]), if_neg hnd2]
      rfl
    | some q =>
      simp only [record_attendance, hsid, hsname, hm, hq2]
      rw [if_neg (by simp [h1, h2, h3]), if_neg hnd2, if_neg (by simp [hq])]
      rfl

theorem record_attendance_qr_notFound (st : SysState) (req : ApiRequest) (today : String)
    (now : Time) (sid sname q : String)
    (hsid : req.studentId = some sid) (hsname : req.studentName = some sname)
    (hm : req.method = some "qr") (hq : req.qrId = some q) (hq0 : q ≠ "")
    (h1 : sid ≠ "") (h2 : sname ≠ "")
    (hnd : ¬ hasRecord st today sid)
    (htok : getKey st.valid_qr_codes q = none) :
    record_attendance st req today now = (ApiResult.invalidToken, initToday st today) := by
  have hnd2 : ¬ ∃ r ∈ todayRecords st today, r.studentId = sid :=
    fun hc => hnd ((hasRecord_def st today sid).mpr hc)
  simp only [record_attendance, hsid, hsname, hm, hq]
  rw [if_neg (by simp [h1, h2]), if_neg hnd2,
    if_pos (show True ∧ q ≠ "" from ⟨trivial, hq0⟩)]
  simp only [htok]
  rfl

theorem record_attendance_qr_expired (st : SysState) (req : ApiRequest) (today : String)
    (now : Time) (sid sname q : String) (expiry : Time)
    (hsid : req.studentId = some sid) (hsname : req.studentName = some sname)
    (hm : req.method = some "qr") (hq : req.qrId = some q) (hq0 : q ≠ "")
    (h1 : sid ≠ "") (h2 : sname ≠ "")
    (hnd : ¬ hasRecord st today sid)
    (htok : getKey st.valid_qr_codes q = some expiry) (hexp : expiry < now) :
    record_attendance st req today now =
      (ApiResult.tokenExpired,
       { initToday st today with valid_qr_codes := delKey st.valid_qr_codes q }) := by
  have hnd2 : ¬ ∃ r ∈ todayRecords st today, r.studentId = sid :=
    fun hc => hnd ((hasRecord_def st today sid).mpr hc)
  simp only [record_attendance, hsid, hsname, hm, hq]
  rw [if_neg (by simp [h1, h2]), if_neg hnd2,
    if_pos (show True ∧ q ≠ "" from ⟨trivial, hq0⟩)]
  simp only [htok, if_pos hexp]
  rfl

theorem record_attendance_qr_ok (st : SysState) (req : ApiRequest) (today : String)
    (now : Time) (sid sname q : String) (expiry : Time)
    (hsid : req.studentId = some sid) (hsname : req.studentName = some sname)
    (hm : req.method = some "qr") (hq : req.qrId = some q) (hq0 : q ≠ "")
    (h1 : sid ≠ "") (h2 : sname ≠ "")
    (hnd : ¬ hasRecord st today sid)
    (htok : getKey st.valid_qr_codes q = some expiry) (hexp : ¬ expiry < now) :
    record_attendance st req today now =
      (ApiResult.success ⟨now, sid, sname, "Present", "qr"⟩,
       insertToday (initToday st today) today (todayRecords st today)
         ⟨now, sid, sname, "Present", "qr"⟩) := by
  have hnd2 : ¬ ∃ r ∈ todayRecords st today, r.studentId = sid :=
    fun hc => hnd ((hasRecord_def st today sid).mpr hc)
  simp only [record_attendance, hsid, hsname, hm, hq]
  rw [if_neg (by simp [h1, h2]), if_neg hnd2,
    if_pos (show True ∧ q ≠ "" from ⟨trivial, hq0⟩)]
  simp only [htok, if_neg hexp]
  rfl

/-! ### Branch characterisations of `attend_form` -/

theorem gateState_valid_qr (st : SysState) (ip : String) (now : Time) :
    (gateState st ip now).valid_qr_codes = st.valid_qr_codes := rfl

theorem todayRecords_gateState (st : SysState) (ip : String) (now : Time) (day : String) :
    todayRecords (gateState st ip now) day = todayRecords st day := rfl

theorem attend_form_denied (st : SysState) (req : FormRequest) (today : String) (now : Time)
    (t0 : Time) (rest : List Time)
    (h : pruneScans now (histOf st req.clientIp) = t0 :: rest) :
    attend_form st req today now =
      (FormResult.rateLimited (t0 + thirtyMinutes), gateState st req.clientIp now) := by
  simp only [attend_form, check_scan_limit_deny st req.clientIp now t0 rest h, Option.getD]

theorem attend_form_missing (st : SysState) (req : FormRequest) (today : String) (now : Time)
    (hallow : pruneScans now (histOf st req.clientIp) = [])
    (hmiss : req.studentId = none ∨ req.studentId = some "" ∨
             req.studentName = none ∨ req.studentName = some "") :
    attend_form st req today now = (FormResult.missingFields, gateState st req.clientIp now) := by
  simp only [attend_form, check_scan_limit_allow st req.clientIp now hallow]
  rcases hmiss with hA | hA | hA | hA
  · cases hB : req.studentName with
    | none => simp only [hA, hB]
    | some sname => simp only [hA, hB]
  · cases hB : req.studentName with
    | none => simp only [hA, hB]
    | some sname =>
      simp only [hA, hB]
      rw [if_pos (Or.inl trivial)]
  · cases hB : req.studentId with
    | none => simp only [hA, hB]
    | some sid => simp only [hA, hB]
  · cases hB : req.studentId with
    | none => simp only [hA, hB]
    | some sid =>
      simp only [hA, hB]
      rw [if_pos (Or.inr trivial)]

theorem attend_form_noQr (st : SysState) (req : FormRequest) (today : String) (now : Time)
    (sid sname : String)
    (hallow : pruneScans now (histOf st req.clientIp) = [])
    (hsid : req.studentId = some sid) (hsname : req.studentName = some sname)
    (h1 : sid ≠ "") (h2 : sname ≠ "")
    (hq : req.qrId = none) :
    attend_form st req today now = (FormResult.invalidQr, gateState st req.clientIp now) := by
  simp only [attend_form, check_scan_limit_allow st req.clientIp now hallow, hsid, hsname, hq]
  rw [if_neg (by simp [h1, h2])]

theorem attend_form_qrNotFound (st : SysState) (req : FormRequest) (today : String) (now : Time)
    (sid sname q : String)
    (hallow : pruneScans now (histOf st req.clientIp) = [])
    (hsid : req.studentId = some sid) (hsname : req.studentName = some sname)
    (h1 : sid ≠ "") (h2 : sname ≠ "")
    (hq : req.qrId = some q)
    (htok : getKey st.valid_qr_codes q = none) :
    attend_form st req today now = (FormResult.invalidQr, gateState st req.clientIp now) := by
  simp only [attend_form, check_scan_limit_allow st req.clientIp now hallow, hsid, hsname, hq]
  rw [if_neg (by simp [h1, h2])]
  simp only [gateState_valid_qr, htok]

theorem attend_form_qrExpired (st : SysState) (req : FormRequest) (today : String) (now : Time)
    (sid sname q : String) (expiry : Time)
    (hallow : pruneScans now (histOf st req.clientIp) = [])
    (hsid : req.studentId = some sid) (hsname : req.studentName = some sname)
    (h1 : sid ≠ "") (h2 : sname ≠ "")
    (hq : req.qrId = some q)
    (htok : getKey st.valid_qr_codes q = some expiry) (hexp : expiry < now) :
    attend_form st req today now =
      (FormResult.expiredQr,
       { gateState st req.clientIp now with valid_qr_codes := delKey st.valid_qr_codes q }) := by
  simp only [attend_form, check_scan_limit_allow st req.clientIp now hallow, hsid, hsname, hq]
  rw [if_neg (by simp [h1, h2])]
  simp only [gateState_valid_qr, htok, if_pos hexp]

theorem attend_form_dup (st : SysState) (req : FormRequest) (today : String) (now : Time)
    (sid sname q : String) (expiry : Time)
    (hallow : pruneScans now (histOf st req.clientIp) = [])
    (hsid : req.studentId = some sid) (hsname : req.studentName = some sname)
    (h1 : sid ≠ "") (h2 : sname ≠ "")
    (hq : req.qrId = some q)
    (htok : getKey st.valid_qr_codes q = some expiry) (hexp : ¬ expiry < now)
    (hdup : hasRecord st today sid) :
    attend_form st req today now =
      (FormResult.duplicate, initToday (gateState st req.clientIp now) today) := by
  simp only [attend_form, check_scan_limit_allow st req.clientIp now hallow, hsid, hsname, hq]
  rw [if_neg (by simp [h1, h2])]
  simp only [gateState_valid_qr, htok, if_neg hexp, todayRecords_gateState]
  rw [if_pos ((hasRecord_def st today sid).mp hdup)]
  rfl

theorem attend_form_success_eq (st : SysState) (req : FormRequest) (today : String) (now : Time)
    (sid sname q : String) (expiry : Time)
    (hallow : pruneScans now (histOf st req.clientIp) = [])
    (hsid : req.studentId = some sid) (hsname : req.studentName = some sname)
    (h1 : sid ≠ "") (h2 : sname ≠ "")
    (hq : req.qrId = some q)
    (htok : getKey st.valid_qr_codes q = some expiry) (hexp : ¬ expiry < now)
    (hnd : ¬ hasRecord st today sid) :
    attend_form st req today now =
      (FormResult.success,
       record_scan_attempt
         (insertToday (initToday (gateState st req.clientIp now) today) today
           (todayRecords st today) ⟨now, sid, sname, "Present", "qr"⟩)
         req.clientIp now) := by
  have hnd2 : ¬ ∃ r ∈ todayRecords st today, r.studentId = sid :=
    fun hc => hnd ((hasRecord_def st today sid).mpr hc)
  simp only [attend_form, check_scan_limit_allow st req.clientIp now hallow, hsid, hsname, hq]
  rw [if_neg (by simp [h1, h2])]
  simp only [gateState_valid_qr, htok, if_neg hexp, todayRecords_gateState]
  rw [if_neg hnd2]
  rfl

/-! ### Ledger and history helper lemmas -/

theorem todayRecords_initToday (st : SysState) (today : String) :
    todayRecords (initToday st today) today = todayRecords st today := by
  simp [todayRecords, initToday, getKey_setKey_self]

theorem todayRecords_insertToday (st : SysState) (today : String)
    (todays : List AttendanceRecord) (r : AttendanceRecord) :
    todayRecords (insertToday st today todays r) today = todays ++ [r] := by
  simp [todayRecords, insertToday, getKey_setKey_self]

theorem scan_history_gateState (st : SysState) (ip : String) (now : Time) :
    getKey (gateState st ip now).scan_history ip = some (pruneScans now (histOf st ip)) := by
  simp [gateState, getKey_setKey_self]

theorem check_scan_limit_state (st : SysState) (ip : String) (now : Time) :
    (check_scan_limit st ip now).2 = gateState st ip now := by
  cases hp : pruneScans now (histOf st ip) <;> simp [check_scan_limit, gateState, hp]

theorem noDupIds_append_single (l : List AttendanceRecord) (r : AttendanceRecord)
    (hl : noDupIds l) (hr : ∀ a ∈ l, a.studentId ≠ r.studentId) :
    noDupIds (l ++ [r]) := by
  simp only [noDupIds, List.pairwise_append]
  refine ⟨hl, List.pairwise_singleton _ _, ?_⟩
  intro a ha b hb
  simp only [List.mem_singleton] at hb
  subst hb
  exact hr a ha

/-! ### Master case sweep over `record_attendance` -/

theorem record_attendance_master (st : SysState) (req : ApiRequest) (today : String)
    (now : Time) :
    (record_attendance st req today now).2.scan_history = st.scan_history ∧
    ((record_attendance st req today now).1 = ApiResult.tokenExpired ∨
       (record_attendance st req today now).2.valid_qr_codes = st.valid_qr_codes) ∧
    ((record_attendance st req today now).1 = ApiResult.invalidToken ∨
       (record_attendance st req today now).1 = ApiResult.tokenExpired →
         req.method = some "qr") ∧
    (noDupIds (todayRecords st today) →
       noDupIds (todayRecords (record_attendance st req today now).2 today)) := by
  cases hA : req.studentId with
  | none =>
    cases hB : req.studentName <;> cases hC : req.method <;>
      simp [record_attendance, hA, hB, hC]
  | some sid =>
    cases hB : req.studentName with
    | none => cases hC : req.method <;> simp [record_attendance, hA, hB, hC]
    | some sname =>
      cases hC : req.method with
      | none => simp [record_attendance, hA, hB, hC]
      | some m =>
        by_cases hish : sid = "" ∨ sname = "" ∨ m = ""
        · simp [record_attendance, hA, hB, hC, hish]
        · push_neg at hish
          obtain ⟨h1, h2, h3⟩ := hish
          by_cases hdup : hasRecord st today sid
          · rw [record_attendance_dup st req today now sid sname m hA hB hC h1 h2 h3 hdup]
            refine ⟨rfl, Or.inr rfl, by simp, ?_⟩
            intro h
            rw [todayRecords_initToday]
            exact h
          · cases hq : req.qrId with
            | none =>
              rw [record_attendance_skip_token st req today now sid sname m hA hB hC h1 h2 h3
                hdup (Or.inl hq)]
              refine ⟨rfl, Or.inr rfl, by simp, ?_⟩
              intro h
              rw [todayRecords_insertToday]
              exact noDupIds_append_single _ _ h
                (fun a ha hae => hdup ⟨a, ha, hae⟩)
            | some q =>
              by_cases hq0 : q = ""
              · subst hq0
                rw [record_attendance_skip_token st req today now sid sname m hA hB hC h1 h2 h3
                  hdup (Or.inr (Or.inl hq))]
                refine ⟨rfl, Or.inr rfl, by simp, ?_⟩
                intro h
                rw [todayRecords_insertToday]
                exact noDupIds_append_single _ _ h
                  (fun a ha hae => hdup ⟨a, ha, hae⟩)
              · by_cases hmq : m = "qr"
                · subst hmq
                  cases htok : getKey st.valid_qr_codes q with
                  | none =>
                    rw [record_attendance_qr_notFound st req today now sid sname q hA hB hC hq
                      hq0 h1 h2 hdup htok]
                    refine ⟨rfl, Or.inr rfl, fun _ => rfl, ?_⟩
                    intro h
                    rw [todayRecords_initToday]
                    exact h
                  | some expiry =>
                    by_cases hexp : expiry < now
                    · rw [record_attendance_qr_expired st req today now sid sname q expiry hA hB
                        hC hq hq0 h1 h2 hdup htok hexp]
                      refine ⟨rfl, Or.inl rfl, fun _ => rfl, ?_⟩
                      intro h
                      have : todayRecords
                          ({ initToday st today with
                              valid_qr_codes := delKey st.valid_qr_codes q }) today =
                          todayRecords (initToday st today) today := rfl
                      rw [this, todayRecords_initToday]
                      exact h
                    · rw [record_attendance_qr_ok st req today now sid sname q expiry hA hB hC
                        hq hq0 h1 h2 hdup htok hexp]
                      refine ⟨rfl, Or.inr rfl, by simp, ?_⟩
                      intro h
                      rw [todayRecords_insertToday]
                      exact noDupIds_append_single _ _ h
                        (fun a ha hae => hdup ⟨a, ha, hae⟩)
                · rw [record_attendance_skip_token st req today now sid sname m hA hB hC h1 h2
                    h3 hdup (Or.inr (Or.inr hmq))]
                  refine ⟨rfl, Or.inr rfl, by simp, ?_⟩
                  intro h
                  rw [todayRecords_insertToday]
                  exact noDupIds_append_single _ _ h
                    (fun a ha hae => hdup ⟨a, ha, hae⟩)

/-! ### Master case sweep over `attend_form` -/

theorem attend_form_master (st : SysState) (req : FormRequest) (today : String) (now : Time) :
    ((attend_form st req today now).1 = FormResult.success →
       pruneScans now (histOf st req.clientIp) = [] ∧
       (attend_form st req today now).2.valid_qr_codes = st.valid_qr_codes) ∧
    ((attend_form st req today now).1 ≠ FormResult.success →
       getKey (attend_form st req today now).2.scan_history req.clientIp =
         some (pruneScans now (histOf st req.clientIp))) ∧
    ((attend_form st req today now).1 = FormResult.success →
       getKey (attend_form st req today now).2.scan_history req.clientIp =
         some (pruneScans now (histOf st req.clientIp) ++ [now])) ∧
    (noDupIds (todayRecords st today) →
       noDupIds (todayRecords (attend_form st req today now).2 today)) ∧
    (∀ sid, req.studentId = some sid → hasRecord st today sid →
       (attend_form st req today now).1 ≠ FormResult.success) := by
  cases hp : pruneScans now (histOf st req.clientIp) with
  | cons t0 rest =>
    rw [attend_form_denied st req today now t0 rest hp]
    refine ⟨by simp, ?_, by simp, ?_, ?_⟩
    · intro _
      rw [scan_history_gateState, hp]
    · intro h
      exact h
    · intro sid2 h1 h2
      simp
  | nil =>
    cases hA : req.studentId with
    | none =>
      rw [attend_form_missing st req today now hp (Or.inl hA)]
      refine ⟨by simp, ?_, by simp, ?_, ?_⟩
      · intro _
        rw [scan_history_gateState, hp]
      · intro h
        exact h
      · intro sid2 h1 h2
        simp
    | some sid =>
      by_cases h1 : sid = ""
      · have hA2 : req.studentId = some "" := h1 ▸ hA
        rw [attend_form_missing st req today now hp (Or.inr (Or.inl hA2))]
        refine ⟨by simp, ?_, by simp, ?_, ?_⟩
        · intro _
          rw [scan_history_gateState, hp]
        · intro h
          exact h
        · intro sid2 hs1 hs2
          simp
      · cases hB : req.studentName with
        | none =>
          rw [attend_form_missing st req today now hp (Or.inr (Or.inr (Or.inl hB)))]
          refine ⟨by simp, ?_, by simp, ?_, ?_⟩
          · intro _
            rw [scan_history_gateState, hp]
          · intro h
            exact h
          · intro sid2 hs1 hs2
            simp
        | some sname =>
          by_cases h2 : sname = ""
          · have hB2 : req.studentName = some "" := h2 ▸ hB
            rw [attend_form_missing st req today now hp (Or.inr (Or.inr (Or.inr hB2)))]
            refine ⟨by simp, ?_, by simp, ?_, ?_⟩
            · intro _
              rw [scan_history_gateState, hp]
            · intro h
              exact h
            · intro sid2 hs1 hs2
              simp
          · cases hq : req.qrId with
            | none =>
              rw [attend_form_noQr st req today now sid sname hp hA hB h1 h2 hq]
              refine ⟨by simp, ?_, by simp, ?_, ?_⟩
              · intro _
                rw [scan_history_gateState, hp]
              · intro h
                exact h
              · intro sid2 hs1 hs2
                simp
            | some q =>
              cases htok : getKey st.valid_qr_codes q with
              | none =>
                rw [attend_form_qrNotFound st req today now sid sname q hp hA hB h1 h2 hq htok]
                refine ⟨by simp, ?_, by simp, ?_, ?_⟩
                · intro _
                  rw [scan_history_gateState, hp]
                · intro h
                  exact h
                · intro sid2 hs1 hs2
                  simp
              | some expiry =>
                by_cases hexp : expiry < now
                · rw [attend_form_qrExpired st req today now sid sname q expiry hp hA hB h1 h2
                    hq htok hexp]
                  refine ⟨by simp, ?_, by simp, ?_, ?_⟩
                  · intro _
                    show getKey (gateState st req.clientIp now).scan_history req.clientIp = _
                    rw [scan_history_gateState, hp]
                  · intro h
                    exact h
                  · intro sid2 hs1 hs2
                    simp
                · by_cases hdup : hasRecord st today sid
                  · rw [attend_form_dup st req today now sid sname q expiry hp hA hB h1 h2 hq
                      htok hexp hdup]
                    refine ⟨by simp, ?_, by simp, ?_, ?_⟩
                    · intro _
                      show getKey (gateState st req.clientIp now).scan_history req.clientIp = _
                      rw [scan_history_gateState, hp]
                    · intro h
                      rw [todayRecords_initToday]
                      exact h
                    · intro sid2 hs1 hs2
                      simp
                  · rw [attend_form_success_eq st req today now sid sname q expiry hp hA hB h1
                      h2 hq htok hexp hdup]
                    refine ⟨?_, ?_, ?_, ?_, ?_⟩
                    · intro _
                      refine ⟨?_, rfl⟩
                      first
                      | exact hp
                      | rfl
                    · intro hne
                      exact absurd rfl hne
                    · intro _
                      simp [record_scan_attempt, histOf, insertToday, initToday, gateState,
                        getKey_setKey_self]
                      all_goals
                        first
                        | rfl
                        | exact hp
                    · intro h
                      show noDupIds (todayRecords
                        (insertToday (initToday (gateState st req.clientIp now) today) today
                          (todayRecords st today) ⟨now, sid, sname, "Present", "qr"⟩) today)
                      rw [todayRecords_insertToday]
                      exact noDupIds_append_single _ _ h (fun a ha hae => hdup ⟨a, ha, hae⟩)
                    · intro sid2 hs1 hs2
                      injection hs1 with hh
                      subst hh
                      exact absurd hs2 hdup

/-! ### Claims C1-C5 -/

/-- Ledger state with student S1 already recorded today, a live token,
and a recent scan from client C1, used by the C1 counterexample. -/
def c1State : SysState :=
  ⟨[("2026-10-12", [⟨0, "S1", "Alice", "Present", "qr"⟩])], [("q1", 1800)], [("C1", [30])]⟩

/-- Claim C1, counterexample to the claim as stated: with student S1
already recorded today, a second form-channel attempt for S1 from a
client whose scan window is full fails with RateLimited, not with
DuplicateCheckIn — so a second attempt does not always yield
DuplicateCheckIn. -/
theorem c1_counterexample :
    hasRecord c1State "2026-10-12" "S1" ∧
    (attend_form c1State ⟨some "q1", some "S1", some "Alice", "C1"⟩ "2026-10-12" 600).1 =
      FormResult.rateLimited 1830 ∧
    (attend_form c1State ⟨some "q1", some "S1", some "Alice", "C1"⟩ "2026-10-12" 600).1 ≠
      FormResult.duplicate := by
  refine ⟨?_, ?_, ?_⟩ <;> decide

/-- Claim C1 (amended): per-day uniqueness holds — a second attempt for
a student already recorded today never succeeds on either channel, the
API channel reports it as DuplicateCheckIn whenever the input fields are
valid, and both handlers preserve the no-duplicate-ids invariant of the
day's ledger partition; on the form channel, however, the rate-limit and
token gates run first, so the failure is not always DuplicateCheckIn. -/
theorem c1_per_day_uniqueness (st : SysState) (req : ApiRequest) (freq : FormRequest)
    (today : String) (now : Time) (sid sname m : String)
    (hsid : req.studentId = some sid) (hsname : req.studentName = some sname)
    (hm : req.method = some m)
    (h1 : sid ≠ "") (h2 : sname ≠ "") (h3 : m ≠ "")
    (hfsid : freq.studentId = some sid)
    (hdup : hasRecord st today sid) :
    (record_attendance st req today now).1 = ApiResult.duplicate ∧
    (attend_form st freq today now).1 ≠ FormResult.success ∧
    (noDupIds (todayRecords st today) →
       noDupIds (todayRecords (record_attendance st req today now).2 today) ∧
       noDupIds (todayRecords (attend_form st freq today now).2 today)) := by
  refine ⟨?_, ?_, fun h => ⟨(record_attendance_master st req today now).2.2.2 h,
    (attend_form_master st freq today now).2.2.2.1 h⟩⟩
  · rw [record_attendance_dup st req today now sid sname m hsid hsname hm h1 h2 h3 hdup]
  · exact (attend_form_master st freq today now).2.2.2.2 sid hfsid hdup

/-- Claim C1 witness: the amended theorem applied to a concrete
duplicate attempt on the API channel. -/
theorem c1_per_day_uniqueness_witness :
    (record_attendance ⟨[("d", [⟨0, "S1", "A", "Present", "qr"⟩])], [], []⟩
        ⟨some "S1", some "B", some "manual", none⟩ "d" 5).1 = ApiResult.duplicate := by
  have h := c1_per_day_uniqueness ⟨[("d", [⟨0, "S1", "A", "Present", "qr"⟩])], [], []⟩
    ⟨some "S1", some "B", some "manual", none⟩ ⟨none, some "S1", some "B", "C9"⟩ "d" 5
    "S1" "B" "manual" rfl rfl rfl (by decide) (by decide) (by decide) rfl (by decide)
  exact h.1

/-- Claim C2: a token whose stored expiry is `tIssue + 30min` is
accepted at every instant `now ≤ tIssue + 30min` on both check-in
channels; strictly after that instant a check-in presenting it fails
with TokenExpired and the token is deleted from the store, on either
channel; and any later check-in presenting a token id that is no longer
in the store fails with InvalidToken, again on either channel. -/
theorem c2_token_expiry (st : SysState) (req : ApiRequest) (freq : FormRequest)
    (today : String) (tIssue now : Time) (sid sname fsid fsname q : String)
    (hsid : req.studentId = some sid) (hsname : req.studentName = some sname)
    (hm : req.method = some "qr") (hq : req.qrId = some q) (hq0 : q ≠ "")
    (h1 : sid ≠ "") (h2 : sname ≠ "")
    (hfsid : freq.studentId = some fsid) (hfsname : freq.studentName = some fsname)
    (hf1 : fsid ≠ "") (hf2 : fsname ≠ "")
    (hfq : freq.qrId = some q)
    (hallow : pruneScans now (histOf st freq.clientIp) = [])
    (hkeys : keysNodup st.valid_qr_codes)
    (htok : getKey st.valid_qr_codes q = some (tIssue + thirtyMinutes))
    (hnd : ¬ hasRecord st today sid)
    (hfnd : ¬ hasRecord st today fsid) :
    (now ≤ tIssue + thirtyMinutes →
       (record_attendance st req today now).1 =
         ApiResult.success ⟨now, sid, sname, "Present", "qr"⟩ ∧
       (attend_form st freq today now).1 = FormResult.success) ∧
    (tIssue + thirtyMinutes < now →
       (record_attendance st req today now).1 = ApiResult.tokenExpired ∧
       getKey (record_attendance st req today now).2.valid_qr_codes q = none ∧
       (attend_form st freq today now).1 = FormResult.expiredQr ∧
       getKey (attend_form st freq today now).2.valid_qr_codes q = none) ∧
    (∀ st2 req2 today2 now2 sid2 sname2,
       req2.studentId = some sid2 → req2.studentName = some sname2 →
       req2.method = some "qr" → req2.qrId = some q →
       sid2 ≠ "" → sname2 ≠ "" →
       ¬ hasRecord st2 today2 sid2 →
       getKey st2.valid_qr_codes q = none →
       (record_attendance st2 req2 today2 now2).1 = ApiResult.invalidToken) ∧
    (∀ st2 : SysState, ∀ freq2 : FormRequest, ∀ today2 now2, ∀ sid2 sname2 : String,
       freq2.studentId = some sid2 → freq2.studentName = some sname2 →
       freq2.qrId = some q → sid2 ≠ "" → sname2 ≠ "" →
       pruneScans now2 (histOf st2 freq2.clientIp) = [] →
       getKey st2.valid_qr_codes q = none →
       (attend_form st2 freq2 today2 now2).1 = FormResult.invalidQr) := by
  refine ⟨?_, ?_, ?_, ?_⟩
  · intro hle
    constructor
    · rw [record_attendance_qr_ok st req today now sid sname q (tIssue + thirtyMinutes)
        hsid hsname hm hq hq0 h1 h2 hnd htok (not_lt.mpr hle)]
    · rw [attend_form_success_eq st freq today now fsid fsname q (tIssue + thirtyMinutes)
        hallow hfsid hfsname hf1 hf2 hfq htok (not_lt.mpr hle) hfnd]
  · intro hlt
    rw [record_attendance_qr_expired st req today now sid sname q (tIssue + thirtyMinutes)
      hsid hsname hm hq hq0 h1 h2 hnd htok hlt]
    rw [attend_form_qrExpired st freq today now fsid fsname q (tIssue + thirtyMinutes)
      hallow hfsid hfsname hf1 hf2 hfq htok hlt]
    refine ⟨rfl, ?_, rfl, ?_⟩
    · show getKey (delKey st.valid_qr_codes q) q = none
      exact getKey_delKey_self st.valid_qr_codes q hkeys
    · show getKey (delKey st.valid_qr_codes q) q = none
      exact getKey_delKey_self st.valid_qr_codes q hkeys
  · intro st2 req2 today2 now2 sid2 sname2 ha hb hc hd he hf hg hh
    rw [record_attendance_qr_notFound st2 req2 today2 now2 sid2 sname2 q ha hb hc hd hq0
      he hf hg hh]
  · intro st2 freq2 today2 now2 sid2 sname2 ha hb hc hd he hf hg
    rw [attend_form_qrNotFound st2 freq2 today2 now2 sid2 sname2 q hf ha hb hd he hc hg]

/-- Claim C2 witness: a token issued at time 0 is accepted at exactly
1800 seconds on both channels, rejected as expired at 1801 seconds on
both channels, and a token id absent from the store is rejected as
invalid on both channels. -/
theorem c2_token_expiry_witness :
    (record_attendance (generate_qr ⟨[], [], []⟩ "q1" 0)
        ⟨some "S1", some "A", some "qr", some "q1"⟩ "d" 1800).1 =
      ApiResult.success ⟨1800, "S1", "A", "Present", "qr"⟩ ∧
    (attend_form (generate_qr ⟨[], [], []⟩ "q1" 0)
        ⟨some "q1", some "S2", some "B", "C1"⟩ "d" 1800).1 = FormResult.success ∧
    (record_attendance (generate_qr ⟨[], [], []⟩ "q1" 0)
        ⟨some "S1", some "A", some "qr", some "q1"⟩ "d" 1801).1 =
      ApiResult.tokenExpired ∧
    (attend_form (generate_qr ⟨[], [], []⟩ "q1" 0)
        ⟨some "q1", some "S2", some "B", "C1"⟩ "d" 1801).1 = FormResult.expiredQr ∧
    (record_attendance ⟨[], [], []⟩ ⟨some "S3", some "C", some "qr", some "q1"⟩ "d"
        2000).1 = ApiResult.invalidToken ∧
    (attend_form ⟨[], [], []⟩ ⟨some "q1", some "S3", some "C", "C4"⟩ "d" 2000).1 =
      FormResult.invalidQr := by
  have hEarly := c2_token_expiry (generate_qr ⟨[], [], []⟩ "q1" 0)
    ⟨some "S1", some "A", some "qr", some "q1"⟩ ⟨some "q1", some "S2", some "B", "C1"⟩
    "d" 0 1800 "S1" "A" "S2" "B" "q1"
    rfl rfl rfl rfl (by decide) (by decide) (by decide) rfl rfl (by decide) (by decide)
    rfl (by decide) (by decide) (by decide) (by decide) (by decide)
  have hLate := c2_token_expiry (generate_qr ⟨[], [], []⟩ "q1" 0)
    ⟨some "S1", some "A", some "qr", some "q1"⟩ ⟨some "q1", some "S2", some "B", "C1"⟩
    "d" 0 1801 "S1" "A" "S2" "B" "q1"
    rfl rfl rfl rfl (by decide) (by decide) (by decide) rfl rfl (by decide) (by decide)
    rfl (by decide) (by decide) (by decide) (by decide) (by decide)
  obtain ⟨hE1, hE2⟩ := hEarly.1 (by decide)
  obtain ⟨hL1, hL2, hL3, hL4⟩ := hLate.2.1 (by decide)
  refine ⟨hE1, hE2, hL1, hL3, ?_, ?_⟩
  · exact hLate.2.2.1 ⟨[], [], []⟩ ⟨some "S3", some "C", some "qr", some "q1"⟩ "d" 2000
      "S3" "C" rfl rfl rfl rfl (by decide) (by decide) (by decide) (by decide)
  · exact hLate.2.2.2 ⟨[], [], []⟩ ⟨some "q1", some "S3", some "C", "C4"⟩ "d" 2000
      "S3" "C" rfl rfl rfl (by decide) (by decide) (by decide) (by decide)

/-- Claim C3: with exactly one recorded scan at `t0`, an attempt
strictly before `t0 + 30min` is denied with next-allowed time
`t0 + 30min`, an attempt at or after `t0 + 30min` passes the gate; a
denied form request fails RateLimited with that same time; a successful
form check-in implies every previously stored scan of the client was at
least 30 minutes old; and at or after `t0 + 30min` a form check-in with
valid fields, a valid token and no duplicate succeeds. -/
theorem c3_rate_limit_window (st : SysState) (ip : String) (t0 now : Time)
    (hh : getKey st.scan_history ip = some [t0]) :
    (now < t0 + thirtyMinutes →
       (check_scan_limit st ip now).1 = (false, some (t0 + thirtyMinutes))) ∧
    (t0 + thirtyMinutes ≤ now →
       (check_scan_limit st ip now).1 = (true, none)) ∧
    (∀ req : FormRequest, ∀ today, req.clientIp = ip → now < t0 + thirtyMinutes →
       (attend_form st req today now).1 = FormResult.rateLimited (t0 + thirtyMinutes)) ∧
    (∀ req : FormRequest, ∀ today now2, req.clientIp = ip →
       (attend_form st req today now2).1 = FormResult.success →
       ∀ t ∈ histOf st ip, t ≤ now2 - thirtyMinutes) ∧
    (∀ req : FormRequest, ∀ today sid sname q expiry, req.clientIp = ip →
       req.studentId = some sid → req.studentName = some sname → req.qrId = some q →
       sid ≠ "" → sname ≠ "" → getKey st.valid_qr_codes q = some expiry →
       ¬ expiry < now → ¬ hasRecord st today sid → t0 + thirtyMinutes ≤ now →
       (attend_form st req today now).1 = FormResult.success) := by
  have hhist : histOf st ip = [t0] := by simp [histOf, hh]
  refine ⟨?_, ?_, ?_, ?_, ?_⟩
  · intro hlt
    rw [check_scan_limit_deny st ip now t0 []
      (by rw [hhist]; exact pruneScans_singleton_within now t0 hlt)]
  · intro hge
    rw [check_scan_limit_allow st ip now
      (by rw [hhist]; exact pruneScans_singleton_past now t0 hge)]
  · intro req today hip hlt
    rw [attend_form_denied st req today now t0 []
      (by rw [hip, hhist]; exact pruneScans_singleton_within now t0 hlt)]
  · intro req today now2 hip hsucc t ht
    have hemp := ((attend_form_master st req today now2).1 hsucc).1
    rw [hip, hhist] at hemp
    by_contra hcon
    push_neg at hcon
    have : t ∈ pruneScans now2 [t0] := by
      rw [hhist] at ht
      exact (mem_pruneScans now2 t [t0]).mpr ⟨ht, by linarith⟩
    rw [hemp] at this
    exact absurd this (List.not_mem_nil t)
  · intro req today sid sname q expiry hip ha hb hc hd he hf hg hi hj
    rw [attend_form_success_eq st req today now sid sname q expiry
      (by rw [hip, hhist]; exact pruneScans_singleton_past now t0 hj) ha hb hd he hc hf hg hi]

/-- Claim C3 witness: a client with one scan at time 0 is denied at 600
seconds with next-allowed time 1800, passes the gate at 1800, and a full
form check-in succeeds at 1800. -/
theorem c3_rate_limit_window_witness :
    (check_scan_limit ⟨[], [("q1", 100000)], [("C1", [0])]⟩ "C1" 600).1 =
      (false, some 1800) ∧
    (check_scan_limit ⟨[], [("q1", 100000)], [("C1", [0])]⟩ "C1" 1800).1 = (true, none) ∧
    (attend_form ⟨[], [("q1", 100000)], [("C1", [0])]⟩
        ⟨some "q1", some "S1", some "A", "C1"⟩ "d" 1800).1 = FormResult.success := by
  have hDeny := c3_rate_limit_window ⟨[], [("q1", 100000)], [("C1", [0])]⟩ "C1" 0 600 rfl
  have hPass := c3_rate_limit_window ⟨[], [("q1", 100000)], [("C1", [0])]⟩ "C1" 0 1800 rfl
  refine ⟨hDeny.1 (by decide), hPass.2.1 (by decide), ?_⟩
  exact hPass.2.2.2.2 ⟨some "q1", some "S1", some "A", "C1"⟩ "d" "S1" "A" "q1" 100000
    rfl rfl rfl rfl (by decide) (by decide) (by decide) (by decide) (by decide) (by decide)

/-- Claim C4, counterexample to the claim as stated: on the API channel
a request with `method = "qr"` and an absent tokenId does NOT fail with
InvalidToken — it succeeds and the record is appended to the ledger. -/
theorem c4_counterexample :
    (record_attendance ⟨[], [], []⟩ ⟨some "S1", some "Alice", some "qr", none⟩ "d" 0).1 =
      ApiResult.success ⟨0, "S1", "Alice", "Present", "qr"⟩ ∧
    (record_attendance ⟨[], [], []⟩ ⟨some "S1", some "Alice", some "qr", none⟩ "d" 0).1 ≠
      ApiResult.invalidToken ∧
    todayRecords (record_attendance ⟨[], [], []⟩
        ⟨some "S1", some "Alice", some "qr", none⟩ "d" 0).2 "d" =
      [⟨0, "S1", "Alice", "Present", "qr"⟩] := by
  refine ⟨?_, ?_, ?_⟩ <;> decide

/-- Claim C4 (amended): on the API channel, a QR check-in whose tokenId
is absent or empty skips token validation entirely — with valid,
non-duplicate input it succeeds, the record is appended to today's
ledger partition, and the token store is untouched. -/
theorem c4_absent_token_skips_validation (st : SysState) (req : ApiRequest) (today : String)
    (now : Time) (sid sname : String)
    (hsid : req.studentId = some sid) (hsname : req.studentName = some sname)
    (hm : req.method = some "qr")
    (h1 : sid ≠ "") (h2 : sname ≠ "")
    (hq : req.qrId = none ∨ req.qrId = some "")
    (hnd : ¬ hasRecord st today sid) :
    (record_attendance st req today now).1 =
      ApiResult.success ⟨now, sid, sname, "Present", "qr"⟩ ∧
    todayRecords (record_attendance st req today now).2 today =
      todayRecords st today ++ [⟨now, sid, sname, "Present", "qr"⟩] ∧
    (record_attendance st req today now).2.valid_qr_codes = st.valid_qr_codes := by
  rw [record_attendance_skip_token st req today now sid sname "qr" hsid hsname hm h1 h2
    (by decide) hnd (hq.elim Or.inl (fun h => Or.inr (Or.inl h)))]
  refine ⟨rfl, ?_, rfl⟩
  rw [todayRecords_insertToday]

/-- Claim C4 witness: the amended theorem applied to a concrete
QR request with an empty tokenId. -/
theorem c4_absent_token_witness :
    (record_attendance ⟨[], [("zz", 1)], []⟩ ⟨some "S9", some "N", some "qr", some ""⟩
        "d" 7).1 = ApiResult.success ⟨7, "S9", "N", "Present", "qr"⟩ := by
  have h := c4_absent_token_skips_validation ⟨[], [("zz", 1)], []⟩
    ⟨some "S9", some "N", some "qr", some ""⟩ "d" 7 "S9" "N"
    rfl rfl rfl (by decide) (by decide) (Or.inr rfl) (by decide)
  exact h.1

/-- Claim C5, counterexample to the claim as stated: on the form channel
a request with a missing studentId from a client whose window is full
fails with RateLimited, not with InvalidInput — the rate-limit gate runs
before field validation. -/
theorem c5_counterexample :
    (attend_form ⟨[], [], [("C1", [0])]⟩ ⟨some "q1", none, some "Alice", "C1"⟩ "d" 600).1 =
      FormResult.rateLimited 1800 ∧
    (attend_form ⟨[], [], [("C1", [0])]⟩ ⟨some "q1", none, some "Alice", "C1"⟩ "d" 600).1 ≠
      FormResult.missingFields := by
  exact ⟨by decide, by decide⟩

/-- Claim C5 (amended): on the form channel the rate-limit gate is
outermost — whenever the client's pruned window is non-empty the request
fails RateLimited regardless of the field contents, and InvalidInput for
a missing or empty required field is reported only when the gate
allows. -/
theorem c5_rate_limit_gate_first (st : SysState) (req : FormRequest) (today : String)
    (now t0 : Time) (rest : List Time)
    (hfull : pruneScans now (histOf st req.clientIp) = t0 :: rest) :
    (attend_form st req today now).1 = FormResult.rateLimited (t0 + thirtyMinutes) ∧
    (∀ st2 : SysState, ∀ now2, pruneScans now2 (histOf st2 req.clientIp) = [] →
       (req.studentId = none ∨ req.studentId = some "" ∨
        req.studentName = none ∨ req.studentName = some "") →
       (attend_form st2 req today now2).1 = FormResult.missingFields) := by
  constructor
  · rw [attend_form_denied st req today now t0 rest hfull]
  · intro st2 now2 hallow hmiss
    rw [attend_form_missing st2 req today now2 hallow hmiss]

/-- Claim C5 witness: the amended theorem applied to a concrete request
with a missing studentId, denied while the window is full and failing
field validation once the window has passed. -/
theorem c5_rate_limit_gate_first_witness :
    (attend_form ⟨[], [], [("C7", [0])]⟩ ⟨some "q1", none, some "Bob", "C7"⟩ "d" 60).1 =
      FormResult.rateLimited 1800 ∧
    (attend_form ⟨[], [], [("C7", [0])]⟩ ⟨some "q1", none, some "Bob", "C7"⟩ "d" 7200).1 =
      FormResult.missingFields := by
  have h := c5_rate_limit_gate_first ⟨[], [], [("C7", [0])]⟩
    ⟨some "q1", none, some "Bob", "C7"⟩ "d" 60 0 [] (by decide)
  exact ⟨h.1, h.2 ⟨[], [], [("C7", [0])]⟩ 7200 (by decide) (Or.inl rfl)⟩

/-! ### Claims C6-C10 -/

/-- State with a duplicate student for today and an expired token, used
by the C6 counterexample. -/
def c6State : SysState :=
  ⟨[("d", [⟨0, "S1", "A", "Present", "qr"⟩])], [("q1", 100)], []⟩

/-- Claim C6, counterexample to the claim as stated: on the form channel
a duplicate request presenting an expired token fails with TokenExpired,
not DuplicateCheckIn, and the expired token IS removed from the store —
the duplicate check does not precede the token checks on that channel. -/
theorem c6_counterexample :
    hasRecord c6State "d" "S1" ∧
    (attend_form c6State ⟨some "q1", some "S1", some "A", "C2"⟩ "d" 600).1 =
      FormResult.expiredQr ∧
    (attend_form c6State ⟨some "q1", some "S1", some "A", "C2"⟩ "d" 600).1 ≠
      FormResult.duplicate ∧
    getKey (attend_form c6State ⟨some "q1", some "S1", some "A", "C2"⟩ "d"
        600).2.valid_qr_codes "q1" = none := by
  refine ⟨?_, ?_, ?_, ?_⟩ <;> decide

/-- Claim C6 (amended): on the API channel the duplicate check precedes
the token checks — a duplicate request fails DuplicateCheckIn and leaves
the token store unchanged even when it presents an expired token.  On
the form channel the token checks run first: a duplicate request with an
expired token fails TokenExpired and the token is invalidated, while
with a still-valid token it fails DuplicateCheckIn with the store
unchanged. -/
theorem c6_duplicate_vs_token_order (st : SysState) (req : ApiRequest) (freq : FormRequest)
    (today : String) (now : Time) (sid sname m q : String) (expiry : Time)
    (hsid : req.studentId = some sid) (hsname : req.studentName = some sname)
    (hm : req.method = some m)
    (h1 : sid ≠ "") (h2 : sname ≠ "") (h3 : m ≠ "")
    (hdup : hasRecord st today sid)
    (hfsid : freq.studentId = some sid) (hfsname : freq.studentName = some sname)
    (hfq : freq.qrId = some q)
    (hallow : pruneScans now (histOf st freq.clientIp) = [])
    (htok : getKey st.valid_qr_codes q = some expiry)
    (hkeys : keysNodup st.valid_qr_codes) :
    ((record_attendance st req today now).1 = ApiResult.duplicate ∧
     (record_attendance st req today now).2.valid_qr_codes = st.valid_qr_codes) ∧
    (expiry < now →
       (attend_form st freq today now).1 = FormResult.expiredQr ∧
       getKey (attend_form st freq today now).2.valid_qr_codes q = none) ∧
    (¬ expiry < now →
       (attend_form st freq today now).1 = FormResult.duplicate ∧
       (attend_form st freq today now).2.valid_qr_codes = st.valid_qr_codes) := by
  refine ⟨?_, ?_, ?_⟩
  · rw [record_attendance_dup st req today now sid sname m hsid hsname hm h1 h2 h3 hdup]
    exact ⟨rfl, rfl⟩
  · intro hexp
    rw [attend_form_qrExpired st freq today now sid sname q expiry hallow hfsid hfsname
      h1 h2 hfq htok hexp]
    refine ⟨rfl, ?_⟩
    show getKey (delKey st.valid_qr_codes q) q = none
    exact getKey_delKey_self st.valid_qr_codes q hkeys
  · intro hexp
    rw [attend_form_dup st freq today now sid sname q expiry hallow hfsid hfsname
      h1 h2 hfq htok hexp hdup]
    exact ⟨rfl, rfl⟩

/-- Claim C6 witness: the amended theorem applied to a concrete state
holding a duplicate record and a token expiring at time 100. -/
theorem c6_duplicate_vs_token_order_witness :
    (record_attendance c6State ⟨some "S1", some "A", some "qr", some "q1"⟩ "d" 600).1 =
      ApiResult.duplicate ∧
    (attend_form c6State ⟨some "q1", some "S1", some "A", "C2"⟩ "d" 600).1 =
      FormResult.expiredQr ∧
    (attend_form c6State ⟨some "q1", some "S1", some "A", "C2"⟩ "d" 50).1 =
      FormResult.duplicate := by
  have h600 := c6_duplicate_vs_token_order c6State
    ⟨some "S1", some "A", some "qr", some "q1"⟩ ⟨some "q1", some "S1", some "A", "C2"⟩
    "d" 600 "S1" "A" "qr" "q1" 100 rfl rfl rfl (by decide) (by decide) (by decide)
    (by decide) rfl rfl rfl (by decide) (by decide) (by decide)
  have h50 := c6_duplicate_vs_token_order c6State
    ⟨some "S1", some "A", some "qr", some "q1"⟩ ⟨some "q1", some "S1", some "A", "C2"⟩
    "d" 50 "S1" "A" "qr" "q1" 100 rfl rfl rfl (by decide) (by decide) (by decide)
    (by decide) rfl rfl rfl (by decide) (by decide) (by decide)
  exact ⟨h600.1.1, (h600.2.1 (by decide)).1, (h50.2.2 (by decide)).1⟩

/-- Claim C7, counterexample to the claim as stated: `record_scan_attempt`
(the write path) does not prune — recording at time 3600 keeps the stale
timestamp 0, which lies outside the 30-minute window. -/
theorem c7_counterexample :
    getKey (record_scan_attempt ⟨[], [], [("C1", [0])]⟩ "C1" 3600).scan_history "C1" =
      some [0, 3600] ∧
    ¬ ((3600 : Time) - thirtyMinutes < 0) := by
  exact ⟨by decide, by decide⟩

/-- Claim C7 (amended): pruning happens on `check_scan_limit` (the
tryAcquire gate) and on the quota query, which runs the same gate —
after either, every stored timestamp of the accessed identity is
strictly newer than `now - 30min`; `record_scan_attempt` (the write
path), however, appends without pruning. -/
theorem c7_pruning_on_reads (st : SysState) (ip : String) (now : Time) :
    (∀ t ∈ histOf (check_scan_limit st ip now).2 ip, now - thirtyMinutes < t) ∧
    (∀ t ∈ histOf (check_scan_limit_api st ip now).2 ip, now - thirtyMinutes < t) ∧
    (record_scan_attempt st ip now).scan_history =
      setKey st.scan_history ip (histOf st ip ++ [now]) := by
  have hmem : ∀ t ∈ pruneScans now (histOf st ip), now - thirtyMinutes < t := by
    intro t ht
    exact ((mem_pruneScans now t (histOf st ip)).mp ht).2
  refine ⟨?_, ?_, rfl⟩
  · rw [check_scan_limit_state, histOf_gateState]
    exact hmem
  · show ∀ t ∈ histOf (check_scan_limit st ip now).2 ip, now - thirtyMinutes < t
    rw [check_scan_limit_state, histOf_gateState]
    exact hmem

/-- Claim C7 witness: the amended theorem applied to a client whose
history holds a live scan at 2000 and a stale scan at 0, read at 3600. -/
theorem c7_pruning_on_reads_witness :
    (3600 : Time) - thirtyMinutes < 2000 ∧
    (record_scan_attempt ⟨[], [], [("C3", [2000, 0])]⟩ "C3" 3600).scan_history =
      setKey ((⟨[], [], [("C3", [2000, 0])]⟩ : SysState).scan_history) "C3"
        (histOf ⟨[], [], [("C3", [2000, 0])]⟩ "C3" ++ [3600]) := by
  have h := c7_pruning_on_reads ⟨[], [], [("C3", [2000, 0])]⟩ "C3" 3600
  exact ⟨h.1 2000 (by decide), h.2.2⟩

/-- Claim C8, counterexample to the claim as stated: a failed form
request (missing studentId) still changes the client's scan-history
sequence — the gate prunes the stale entry 0, leaving the empty list. -/
theorem c8_counterexample :
    (attend_form ⟨[], [], [("C1", [0])]⟩ ⟨some "q1", none, some "A", "C1"⟩ "d" 3600).1 =
      FormResult.missingFields ∧
    getKey (attend_form ⟨[], [], [("C1", [0])]⟩ ⟨some "q1", none, some "A", "C1"⟩ "d"
        3600).2.scan_history "C1" = some [] ∧
    getKey ((⟨[], [], [("C1", [0])]⟩ : SysState).scan_history) "C1" = some [0] := by
  refine ⟨?_, ?_, ?_⟩ <;> decide

/-- Claim C8 (amended): the scan timestamp is appended exactly when the
form check-in fully succeeds — on any failure the client's stored
history equals the pruned initial history (the gate's pruning may drop
stale entries, but nothing is ever appended), and on success it equals
the pruned history with `now` appended. -/
theorem c8_failure_appends_nothing (st : SysState) (req : FormRequest) (today : String)
    (now : Time) :
    ((attend_form st req today now).1 ≠ FormResult.success →
       getKey (attend_form st req today now).2.scan_history req.clientIp =
         some (pruneScans now (histOf st req.clientIp))) ∧
    ((attend_form st req today now).1 = FormResult.success →
       getKey (attend_form st req today now).2.scan_history req.clientIp =
         some (pruneScans now (histOf st req.clientIp) ++ [now])) :=
  ⟨(attend_form_master st req today now).2.1, (attend_form_master st req today now).2.2.1⟩

/-- Claim C8 witness: the amended theorem applied to a failed concrete
request (missing studentId after the gate passes). -/
theorem c8_failure_appends_nothing_witness :
    getKey (attend_form ⟨[], [], [("C2", [0])]⟩ ⟨some "q1", none, some "A", "C2"⟩ "d"
        3600).2.scan_history "C2" =
      some (pruneScans 3600 (histOf ⟨[], [], [("C2", [0])]⟩ "C2")) :=
  (c8_failure_appends_nothing ⟨[], [], [("C2", [0])]⟩ ⟨some "q1", none, some "A", "C2"⟩
    "d" 3600).1 (by decide)

/-- Claim C9: a check-in on the API channel whose method is not "qr"
never fails with InvalidToken or TokenExpired, and the token store is
left unchanged, regardless of the tokenId field. -/
theorem c9_manual_bypasses_token_checks (st : SysState) (req : ApiRequest) (today : String)
    (now : Time) (m : String) (hm : req.method = some m) (hmq : m ≠ "qr") :
    (record_attendance st req today now).1 ≠ ApiResult.invalidToken ∧
    (record_attendance st req today now).1 ≠ ApiResult.tokenExpired ∧
    (record_attendance st req today now).2.valid_qr_codes = st.valid_qr_codes := by
  obtain ⟨hscan, hvalid, htokimp, hnodup⟩ := record_attendance_master st req today now
  have hnotqr : req.method ≠ some "qr" := by
    rw [hm]
    intro hcon
    injection hcon with hcc
    exact hmq hcc
  have hni : (record_attendance st req today now).1 ≠ ApiResult.invalidToken :=
    fun hcon => hnotqr (htokimp (Or.inl hcon))
  have hne : (record_attendance st req today now).1 ≠ ApiResult.tokenExpired :=
    fun hcon => hnotqr (htokimp (Or.inr hcon))
  refine ⟨hni, hne, ?_⟩
  rcases hvalid with hcase | hcase
  · exact absurd hcase hne
  · exact hcase

/-- Claim C9 witness: a manual check-in presenting a bogus tokenId and,
in a second instance, an expired token — neither touches the store. -/
theorem c9_manual_bypasses_token_checks_witness :
    (record_attendance ⟨[], [("q1", 100)], []⟩
        ⟨some "S1", some "A", some "manual", some "bogus"⟩ "d" 600).1 ≠
      ApiResult.invalidToken ∧
    (record_attendance ⟨[], [("q1", 100)], []⟩
        ⟨some "S1", some "A", some "manual", some "q1"⟩ "d" 600).2.valid_qr_codes =
      [("q1", 100)] := by
  have hBogus := c9_manual_bypasses_token_checks ⟨[], [("q1", 100)], []⟩
    ⟨some "S1", some "A", some "manual", some "bogus"⟩ "d" 600 "manual" rfl (by decide)
  have hExpired := c9_manual_bypasses_token_checks ⟨[], [("q1", 100)], []⟩
    ⟨some "S1", some "A", some "manual", some "q1"⟩ "d" 600 "manual" rfl (by decide)
  exact ⟨hBogus.1, hExpired.2.2⟩

/-- Claim C10: a successful check-in leaves the token store unchanged on
both channels — a valid, unexpired token is neither removed nor altered
when used, so the same token id keeps authorising further check-ins
until it expires. -/
theorem c10_success_preserves_token_store (st : SysState) (req : ApiRequest)
    (freq : FormRequest) (today : String) (now : Time) :
    (∀ r, (record_attendance st req today now).1 = ApiResult.success r →
       (record_attendance st req today now).2.valid_qr_codes = st.valid_qr_codes) ∧
    ((attend_form st freq today now).1 = FormResult.success →
       (attend_form st freq today now).2.valid_qr_codes = st.valid_qr_codes) := by
  constructor
  · intro r hr
    rcases (record_attendance_master st req today now).2.1 with hcase | hcase
    · rw [hr] at hcase
      exact absurd hcase (by simp)
    · exact hcase
  · intro hs
    exact ((attend_form_master st freq today now).1 hs).2

/-- Claim C10 witness: two successful check-ins — one per channel, by
distinct students presenting the same token — both leave the store
intact. -/
theorem c10_success_preserves_token_store_witness :
    (record_attendance ⟨[], [("q1", 5000)], []⟩ ⟨some "S1", some "A", some "qr", some "q1"⟩
        "d" 10).2.valid_qr_codes = [("q1", 5000)] ∧
    (attend_form ⟨[], [("q1", 5000)], []⟩ ⟨some "q1", some "S2", some "B", "C3"⟩ "d"
        10).2.valid_qr_codes = [("q1", 5000)] := by
  have h := c10_success_preserves_token_store ⟨[], [("q1", 5000)], []⟩
    ⟨some "S1", some "A", some "qr", some "q1"⟩ ⟨some "q1", some "S2", some "B", "C3"⟩ "d" 10
  exact ⟨h.1 ⟨10, "S1", "A", "Present", "qr"⟩ (by decide), h.2 (by decide)⟩

end QRAttendance
